import Mathlib

/-!
# The transaction object of txn.h

A shallow embedding of the data model and the small operations of `txn.h`:
the transaction state machine, the abort-reason taxonomy and its counters,
read records, write records, the dedup write-info entries and their order.

Pointers are addresses (`Nat`, with `0` for `nullptr`) when only their identity
matters, and `Option T` (with `none` for `nullptr`) when the pointee is read.
-/

/-- Modelled from the spec: `marked_ptr<T>` of marked_ptr.h, which is not part
of the sources. The spec describes it as a reference with flag
bits folded in, to be read as the pair `{ reference, flag_bits }`: `get` gives
the reference, `get_flags` the flag bits, `set_flags` replaces the flag bits,
`or_flags` ors into them, and two marked pointers compare by reference. -/
structure marked_ptr where
  ptr : Nat
  flags : Nat
deriving DecidableEq, Repr

namespace marked_ptr

/-- The conversion `marked_ptr(T *px)`: the reference with no flag set. -/
def of_ptr (px : Nat) : marked_ptr := { ptr := px, flags := 0 }

/-- The accessor `get()`. -/
def get (p : marked_ptr) : Nat := p.ptr

/-- The accessor `get_flags()`. -/
def get_flags (p : marked_ptr) : Nat := p.flags

/-- The mutator `set_flags(flags)`. -/
def set_flags (p : marked_ptr) (f : Nat) : marked_ptr := { p with flags := f }

/-- The mutator `or_flags(flags)`. -/
def or_flags (p : marked_ptr) (f : Nat) : marked_ptr := { p with flags := p.flags ||| f }

/-- The comparison `operator<` of two marked pointers: by reference. -/
def lt (p o : marked_ptr) : Bool := decide (p.get < o.get)

/-- The comparison `operator==` of two marked pointers: by reference. -/
def eq (p o : marked_ptr) : Bool := decide (p.get = o.get)

end marked_ptr

namespace transaction_base

/-! ## Dedup write-info entries (`struct dbtuple_write_info`) -/

/-- An entry of the dedup vector: `marked_ptr<dbtuple> tuple`. -/
structure dbtuple_write_info where
  tuple : marked_ptr
deriving DecidableEq, Repr

namespace dbtuple_write_info

/-- The enumerator `FLAGS_LOCKED = 0x1`. -/
def FLAGS_LOCKED : Nat := 0x1

/-- The enumerator `FLAGS_INSERT = 0x1 << 1`. -/
def FLAGS_INSERT : Nat := 0x1 <<< 1

/-- The constructor `dbtuple_write_info(dbtuple *tuple)`. -/
def mk1 (tuple : Nat) : dbtuple_write_info := { tuple := marked_ptr.of_ptr tuple }

/-- The constructor `dbtuple_write_info(dbtuple *tuple, bool insert)`. -/
def mk2 (tuple : Nat) (insert : Bool) : dbtuple_write_info :=
  { tuple := (marked_ptr.of_ptr tuple).set_flags
      (if insert then FLAGS_LOCKED ||| FLAGS_INSERT else 0) }

/-- The accessor `get_tuple()`. -/
def get_tuple (e : dbtuple_write_info) : Nat := e.tuple.get

/-- The test `is_locked()`: `tuple.get_flags() & FLAGS_LOCKED` read as a bool. -/
def is_locked (e : dbtuple_write_info) : Bool := e.tuple.get_flags &&& FLAGS_LOCKED != 0

/-- The test `is_insert()`: `tuple.get_flags() & FLAGS_INSERT` read as a bool. -/
def is_insert (e : dbtuple_write_info) : Bool := e.tuple.get_flags &&& FLAGS_INSERT != 0

/-- The comparison `operator<`:
`tuple < o.tuple || (tuple == o.tuple && !is_insert() < !o.is_insert())`,
the two negated bools being compared as the integers 0 and 1. -/
def lt (e o : dbtuple_write_info) : Bool :=
  e.tuple.lt o.tuple ||
    (e.tuple.eq o.tuple && decide ((!e.is_insert).toNat < (!o.is_insert).toNat))

/-- The method `mark_locked()`: `tuple.or_flags(FLAGS_LOCKED)` between the two
checks `INVARIANT(!is_locked())` and `INVARIANT(is_locked())`. The first
component is the entry after the call; the second tells whether both conditions
handed to `INVARIANT` held. -/
def mark_locked (e : dbtuple_write_info) : dbtuple_write_info × Bool :=
  let e1 : dbtuple_write_info := { tuple := e.tuple.or_flags FLAGS_LOCKED }
  (e1, !e.is_locked && e1.is_locked)

end dbtuple_write_info

/-! ## The state machine, the flags and the abort reasons -/

/-- The enumeration `txn_state`. -/
inductive txn_state where
  | TXN_EMBRYO
  | TXN_ACTIVE
  | TXN_COMMITED
  | TXN_ABRT
deriving DecidableEq, Repr

/-- The flag `TXN_FLAG_LOW_LEVEL_SCAN = 0x1`. -/
def TXN_FLAG_LOW_LEVEL_SCAN : Nat := 0x1

/-- The flag `TXN_FLAG_READ_ONLY = 0x2`. -/
def TXN_FLAG_READ_ONLY : Nat := 0x2

/-- The enumeration `abort_reason`, one enumerator per line of `ABORT_REASONS`. -/
inductive abort_reason where
  | ABORT_REASON_USER
  | ABORT_REASON_UNSTABLE_READ
  | ABORT_REASON_FUTURE_TID_READ
  | ABORT_REASON_NODE_SCAN_WRITE_VERSION_CHANGED
  | ABORT_REASON_NODE_SCAN_READ_VERSION_CHANGED
  | ABORT_REASON_WRITE_NODE_INTERFERENCE
  | ABORT_REASON_INSERT_NODE_INTERFERENCE
  | ABORT_REASON_READ_NODE_INTEREFERENCE
  | ABORT_REASON_READ_ABSENCE_INTEREFERENCE
deriving DecidableEq, Repr

open abort_reason in
/-- The list `ABORT_REASONS`, in the order of the source. -/
def ABORT_REASONS : List abort_reason :=
  [ABORT_REASON_USER, ABORT_REASON_UNSTABLE_READ, ABORT_REASON_FUTURE_TID_READ,
   ABORT_REASON_NODE_SCAN_WRITE_VERSION_CHANGED, ABORT_REASON_NODE_SCAN_READ_VERSION_CHANGED,
   ABORT_REASON_WRITE_NODE_INTERFERENCE, ABORT_REASON_INSERT_NODE_INTERFERENCE,
   ABORT_REASON_READ_NODE_INTEREFERENCE, ABORT_REASON_READ_ABSENCE_INTEREFERENCE]

open abort_reason in
/-- The integer value of an enumerator: its position in `ABORT_REASONS`. -/
def abort_reason.val : abort_reason → Nat
  | ABORT_REASON_USER => 0
  | ABORT_REASON_UNSTABLE_READ => 1
  | ABORT_REASON_FUTURE_TID_READ => 2
  | ABORT_REASON_NODE_SCAN_WRITE_VERSION_CHANGED => 3
  | ABORT_REASON_NODE_SCAN_READ_VERSION_CHANGED => 4
  | ABORT_REASON_WRITE_NODE_INTERFERENCE => 5
  | ABORT_REASON_INSERT_NODE_INTERFERENCE => 6
  | ABORT_REASON_READ_NODE_INTEREFERENCE => 7
  | ABORT_REASON_READ_ABSENCE_INTEREFERENCE => 8

/-- The switch of `AbortReasonStr` over the integer value of its argument: each
case returns the spelling of its enumerator, and `none` stands for the
fall-through to `ALWAYS_ASSERT(false)`. -/
def AbortReasonStr_switch : Nat → Option String
  | 0 => some "ABORT_REASON_USER"
  | 1 => some "ABORT_REASON_UNSTABLE_READ"
  | 2 => some "ABORT_REASON_FUTURE_TID_READ"
  | 3 => some "ABORT_REASON_NODE_SCAN_WRITE_VERSION_CHANGED"
  | 4 => some "ABORT_REASON_NODE_SCAN_READ_VERSION_CHANGED"
  | 5 => some "ABORT_REASON_WRITE_NODE_INTERFERENCE"
  | 6 => some "ABORT_REASON_INSERT_NODE_INTERFERENCE"
  | 7 => some "ABORT_REASON_READ_NODE_INTEREFERENCE"
  | 8 => some "ABORT_REASON_READ_ABSENCE_INTEREFERENCE"
  | _ => none

/-- The function `AbortReasonStr(reason)`. -/
def AbortReasonStr (reason : abort_reason) : Option String :=
  AbortReasonStr_switch reason.val

/-- The static `event_counter` members of `transaction_base`: the nine
`g_ ## x ## _ctr` that `EVENT_COUNTER_DEF_X` declares, then the seven others. -/
inductive event_counter_name where
  | g_ABORT_REASON_USER_ctr
  | g_ABORT_REASON_UNSTABLE_READ_ctr
  | g_ABORT_REASON_FUTURE_TID_READ_ctr
  | g_ABORT_REASON_NODE_SCAN_WRITE_VERSION_CHANGED_ctr
  | g_ABORT_REASON_NODE_SCAN_READ_VERSION_CHANGED_ctr
  | g_ABORT_REASON_WRITE_NODE_INTERFERENCE_ctr
  | g_ABORT_REASON_INSERT_NODE_INTERFERENCE_ctr
  | g_ABORT_REASON_READ_NODE_INTEREFERENCE_ctr
  | g_ABORT_REASON_READ_ABSENCE_INTEREFERENCE_ctr
  | g_evt_read_logical_deleted_node_search
  | g_evt_read_logical_deleted_node_scan
  | g_evt_dbtuple_write_search_failed
  | g_evt_dbtuple_write_insert_failed
  | evt_local_search_lookups
  | evt_local_search_write_set_hits
  | evt_dbtuple_latest_replacement
deriving DecidableEq, Repr

open event_counter_name in
/-- The switch of `AbortReasonCounter` over the integer value of its argument: each
case returns the address of the counter of its enumerator, and `none` stands for
the fall-through to `ALWAYS_ASSERT(false)`. -/
def AbortReasonCounter_switch : Nat → Option event_counter_name
  | 0 => some g_ABORT_REASON_USER_ctr
  | 1 => some g_ABORT_REASON_UNSTABLE_READ_ctr
  | 2 => some g_ABORT_REASON_FUTURE_TID_READ_ctr
  | 3 => some g_ABORT_REASON_NODE_SCAN_WRITE_VERSION_CHANGED_ctr
  | 4 => some g_ABORT_REASON_NODE_SCAN_READ_VERSION_CHANGED_ctr
  | 5 => some g_ABORT_REASON_WRITE_NODE_INTERFERENCE_ctr
  | 6 => some g_ABORT_REASON_INSERT_NODE_INTERFERENCE_ctr
  | 7 => some g_ABORT_REASON_READ_NODE_INTEREFERENCE_ctr
  | 8 => some g_ABORT_REASON_READ_ABSENCE_INTEREFERENCE_ctr
  | _ => none

/-- The function `AbortReasonCounter(reason)`. -/
def AbortReasonCounter (reason : abort_reason) : Option event_counter_name :=
  AbortReasonCounter_switch reason.val

/-- Modelled from the spec: `event_counter` of counter.h, which is not part of the
sources. The spec calls it "a dedicated monotonic counter" that an abort
increments: its state is its count. -/
structure event_counter where
  count : Nat
deriving DecidableEq, Repr

/-- Modelled from the spec: `event_counter::inc()` of counter.h, which is not part
of the sources: the increment of a monotonic counter. -/
def event_counter.inc (c : event_counter) : event_counter := { count := c.count + 1 }

end transaction_base

/-- The data members of `class transaction_base`; `reason` is not set by the
constructor and so starts as `none`. -/
structure transaction_base where
  state : transaction_base.txn_state
  reason : Option transaction_base.abort_reason
  flags : Nat
deriving DecidableEq, Repr

namespace transaction_base

/-- The constructor `transaction_base(uint64_t flags)`. -/
def ctor (flags : Nat) : transaction_base :=
  { state := txn_state.TXN_EMBRYO, reason := none, flags := flags }

/-- The method `ensure_active()`. The first component is the object after the
call; the second is the value of the condition `state == TXN_ACTIVE` handed to
`INVARIANT`, so `false` is a failed invariant check. -/
def ensure_active (t : transaction_base) : transaction_base × Bool :=
  let t1 := if t.state = txn_state.TXN_EMBRYO then { t with state := txn_state.TXN_ACTIVE } else t
  (t1, decide (t1.state = txn_state.TXN_ACTIVE))

/-- The accessor `get_flags()`. -/
def get_flags (t : transaction_base) : Nat := t.flags

/-! ## Read records and write records -/

/-- The struct `read_record_t`: the tuple read and the tid observed. -/
structure read_record_t where
  tuple : Nat
  t : Nat
deriving DecidableEq, Repr

/-- The accessor `read_record_t::get_tuple()`. -/
def read_record_t.get_tuple (r : read_record_t) : Nat := r.tuple

/-- The accessor `read_record_t::get_tid()`. -/
def read_record_t.get_tid (r : read_record_t) : Nat := r.t

/-- The struct `absent_record_t`. -/
structure absent_record_t where
  version : Nat
deriving DecidableEq, Repr

end transaction_base

/-- The template `static_container<T, enable>`: the specialisation for
`enable = true` stores one `T`, the general template stores nothing. -/
def static_container (T : Type) : Bool → Type
  | true => T
  | false => Unit

namespace static_container

/-- The no-argument construction of a container: a default `T`, or nothing. -/
def init (T : Type) [Inhabited T] : (enable : Bool) → static_container T enable
  | true => (default : T)
  | false => ()

/-- The method `assign(t)`. -/
def assign {T : Type} : {enable : Bool} → static_container T enable → T → static_container T enable
  | true, _, t => t
  | false, c, _ => c

/-- The method `get()`: the address of the stored `T`, or `nullptr`. -/
def get {T : Type} : {enable : Bool} → static_container T enable → Option T
  | true, c => some c
  | false, _ => none

end static_container

namespace transaction_base

/-- The struct `basic_write_record_t<ValueType, ValueInfoType, StableInputs>`.
The pointers `k` and `r` are `none` when null and hold their pointee otherwise. -/
structure basic_write_record_t (ValueType ValueInfoType : Type) (StableInputs : Bool) where
  tuple : Nat
  k : Option String
  r : Option ValueType
  vinfo : ValueInfoType
  btr : marked_ptr
  key_container : static_container String (!StableInputs)
  value_container : static_container ValueType (!StableInputs)

namespace basic_write_record_t

variable {ValueType ValueInfoType : Type} {StableInputs : Bool}

/-- The enumerator `FLAGS_INSERT = 0x1`. -/
def FLAGS_INSERT : Nat := 0x1

/-- The constructor
`basic_write_record_t(tuple, k, r, vinfo, btr, insert)`. -/
def ctor (StableInputs : Bool) [Inhabited ValueType] (tuple : Nat) (k : String)
    (r : Option ValueType) (vinfo : ValueInfoType) (btr : Nat) (insert : Bool) :
    basic_write_record_t ValueType ValueInfoType StableInputs :=
  let key_container0 : static_container String (!StableInputs) := static_container.init String _
  let value_container0 : static_container ValueType (!StableInputs) :=
    static_container.init ValueType _
  let key_container1 := if !StableInputs then key_container0.assign k else key_container0
  let value_container1 :=
    if !StableInputs then
      match r with
      | some v => value_container0.assign v
      | none => value_container0
    else value_container0
  { tuple := tuple
    k := if StableInputs then some k else none
    r := r
    vinfo := vinfo
    btr := (marked_ptr.of_ptr btr).set_flags (if insert then FLAGS_INSERT else 0)
    key_container := key_container1
    value_container := value_container1 }

/-- The accessor `get_tuple()`. -/
def get_tuple (w : basic_write_record_t ValueType ValueInfoType StableInputs) : Nat := w.tuple

/-- The test `is_insert()`: `btr.get_flags()` read as a bool. -/
def is_insert (w : basic_write_record_t ValueType ValueInfoType StableInputs) : Bool :=
  w.btr.get_flags != 0

/-- The accessor `get_btree()`. -/
def get_btree (w : basic_write_record_t ValueType ValueInfoType StableInputs) : Nat := w.btr.get

/-- The accessor `get_key()`: the string that `k`, or the key container, points to. -/
def get_key (w : basic_write_record_t ValueType ValueInfoType StableInputs) : Option String :=
  if StableInputs then w.k else w.key_container.get

/-- The accessor `get_value()`: `none` is `nullptr`. -/
def get_value (w : basic_write_record_t ValueType ValueInfoType StableInputs) :
    Option ValueType :=
  if StableInputs then w.r
  else
    match w.r with
    | some _ => w.value_container.get
    | none => none

/-- The accessor `get_value_info()`. -/
def get_value_info (w : basic_write_record_t ValueType ValueInfoType StableInputs) :
    ValueInfoType := w.vinfo

end basic_write_record_t

end transaction_base

/-! ## The standard binary search -/

/-- The algorithm `std::lower_bound(first, last, val)` over the range that is the
whole of `v`, positions being indices: the loop `while (len > 0)` that halves
`len`, run for at most `fuel` rounds. It returns the final `first`. -/
def lower_bound_loop {α : Type} (comp : α → α → Bool) (v : List α) (val : α) :
    Nat → Nat → Nat → Nat
  | 0, first, _ => first
  | fuel + 1, first, len =>
    if 0 < len then
      let half := len >>> 1
      let middle := first + half
      match v[middle]? with
      | some m =>
        if comp m val then lower_bound_loop comp v val fuel (middle + 1) (len - half - 1)
        else lower_bound_loop comp v val fuel first half
      | none => first
    else first

/-- The algorithm `std::lower_bound(v.begin(), v.end(), val)`; the loop runs at most
`v.size()` rounds, since every round makes `len` smaller. -/
def lower_bound {α : Type} (comp : α → α → Bool) (v : List α) (val : α) : Nat :=
  lower_bound_loop comp v val v.length 0 v.length

/-- The algorithm `std::binary_search(v.begin(), v.end(), val)`:
`i != last && !(val < *i)` for `i` the lower bound. -/
def binary_search {α : Type} (comp : α → α → Bool) (v : List α) (val : α) : Bool :=
  match v[lower_bound comp v val]? with
  | some e => !(comp val e)
  | none => false

/-! ## The transaction object (`class transaction`) -/

/-- The data members of `class transaction`: those of the base class and the
three sets. An absent-set entry is a node with the record kept for it. -/
structure transaction (ValueType ValueInfoType : Type) (StableInputs : Bool) extends
    transaction_base where
  read_set : List transaction_base.read_record_t
  write_set : List (transaction_base.basic_write_record_t ValueType ValueInfoType StableInputs)
  absent_set : List (Nat × transaction_base.absent_record_t)

namespace transaction

open transaction_base

variable {ValueType ValueInfoType : Type} {StableInputs : Bool}

/-- The function `sorted_dbtuples_contains(dbtuples, tuple)`: a binary search with
`operator<` for the entry `dbtuple_write_info(tuple)`. -/
def sorted_dbtuples_contains (dbtuples : List dbtuple_write_info) (tuple : Nat) : Bool :=
  binary_search dbtuple_write_info.lt dbtuples (dbtuple_write_info.mk1 tuple)

/-- A vector of entries is sorted by `operator<` when no entry is smaller than
an entry before it. -/
def dbtuples_sorted (dbtuples : List dbtuple_write_info) : Prop :=
  dbtuples.Pairwise (fun a b => b.lt a = false)

instance (dbtuples : List dbtuple_write_info) : Decidable (dbtuples_sorted dbtuples) := by
  unfold dbtuples_sorted
  infer_instance

/-- The method `abort_trap(reason)` of the build without `DIE_ON_ABORT`:
`AbortReasonCounter(reason)->inc()`. The state is the static counters and the
transaction object; `none` is the failed assertion of `AbortReasonCounter`. -/
def abort_trap (g : event_counter_name → event_counter)
    (t : transaction ValueType ValueInfoType StableInputs) (reason : abort_reason) :
    Option ((event_counter_name → event_counter) ×
      transaction ValueType ValueInfoType StableInputs) :=
  match AbortReasonCounter reason with
  | some c => some (Function.update g c (g c).inc, t)
  | none => none

/-- The test `is_read_only()`: `get_flags() & TXN_FLAG_READ_ONLY` read as a bool. -/
def is_read_only (t : transaction ValueType ValueInfoType StableInputs) : Bool :=
  t.get_flags &&& TXN_FLAG_READ_ONLY != 0

/-- The accessor `get_read_set()`. -/
def get_read_set (t : transaction ValueType ValueInfoType StableInputs) :
    List read_record_t := t.read_set

/-- The accessor `get_write_set()`. -/
def get_write_set (t : transaction ValueType ValueInfoType StableInputs) :
    List (basic_write_record_t ValueType ValueInfoType StableInputs) := t.write_set

/-- The accessor `get_absent_set()`. -/
def get_absent_set (t : transaction ValueType ValueInfoType StableInputs) :
    List (Nat × absent_record_t) := t.absent_set

/-- The loop of `find_read_set`: the first argument is the range from `it` to
`it_end`, and the result is the position at which the loop stops. -/
def find_read_set_loop : List read_record_t → Nat → Nat → Nat
  | [], _, it => it
  | r :: rest, tuple, it =>
    if r.get_tuple = tuple then it else find_read_set_loop rest tuple (it + 1)

/-- The method `find_read_set(tuple)`: the object after the call and the position
returned, `read_set.size()` being `read_set.end()`. -/
def find_read_set (t : transaction ValueType ValueInfoType StableInputs) (tuple : Nat) :
    transaction ValueType ValueInfoType StableInputs × Nat :=
  (t, find_read_set_loop t.read_set tuple 0)

/-- Modelled from the spec: the answer of the Index to the tentative insert that
`try_insert_new_tuple` asks for; the Index is an external collaborator. It
"either creates a new locked Versioned Record or reports existing-key
interference"; a created record comes with the node changed and the node's
version counter before and after the change. -/
inductive tentative_insert where
  | existing_key
  | created (tuple : Nat) (nonnull : tuple ≠ 0) (node old_version new_version : Nat)

/-- Modelled from the spec: `try_insert_new_tuple`, declared in txn.h and defined
in a file that is not part of the sources. From §4.2 of the spec and the
comment on the declaration: when the Index creates no record the result is
`(nullptr, false)` and nothing changes; when it creates one, a write record tagged
insert is appended for it, then the absent set is consulted for the changed
node: a recorded version other than the one the Index saw is a conflict and sets the
abort flag, a recorded version equal to it is moved to the new version. -/
def try_insert_new_tuple [Inhabited ValueType]
    (t : transaction ValueType ValueInfoType StableInputs) (btr : Nat) (key : String)
    (value : Option ValueType) (vinfo : ValueInfoType) (answer : tentative_insert) :
    (Nat × Bool) × transaction ValueType ValueInfoType StableInputs :=
  match answer with
  | tentative_insert.existing_key => ((0, false), t)
  | tentative_insert.created tuple _ node old_version new_version =>
    let t1 := { t with
      write_set := t.write_set ++ [basic_write_record_t.ctor StableInputs tuple key value vinfo btr true] }
    match t1.absent_set.lookup node with
    | some rec =>
      if rec.version ≠ old_version then ((tuple, true), t1)
      else
        ((tuple, false), { t1 with
          absent_set := t1.absent_set.map
            (fun e => if e.1 = node then (e.1, { version := new_version }) else e) })
    | none => ((tuple, false), t1)

/-- A transaction object of the default build, used to run the operations on. -/
def sample_txn : transaction Nat Nat false :=
  transaction.mk (transaction_base.ctor 0)
    [{ tuple := 8, t := 1 }, { tuple := 16, t := 2 }, { tuple := 16, t := 3 }]
    []
    [(64, { version := 3 })]

end transaction

/-- The class `transaction_abort_exception`: its data member `r`. -/
structure transaction_abort_exception where
  r : transaction_base.abort_reason
deriving DecidableEq, Repr

namespace transaction_abort_exception

/-- The constructor `transaction_abort_exception(r)`. -/
def ctor (r : transaction_base.abort_reason) : transaction_abort_exception := { r := r }

/-- The accessor `get_reason()`. -/
def get_reason (e : transaction_abort_exception) : transaction_base.abort_reason := e.r

/-- The method `what()`. -/
def what (e : transaction_abort_exception) : Option String :=
  transaction_base.AbortReasonStr e.r

end transaction_abort_exception

/-! ## Theorems -/

/-! ### The order of the dedup write-info entries -/

namespace transaction_base

/-- C1: `dbtuple_write_info::operator<` is a strict total order on the pairs
(tuple identity, insert flag): it is irreflexive and transitive, exactly one of
`a < b`, `b < a` and "same tuple and same insert flag" holds, a smaller tuple makes
an entry smaller, and among entries of one tuple `a < b` holds exactly when `a` is
an insert and `b` is not. -/
theorem dbtuple_write_info_lt_strict_total_order (a b c : dbtuple_write_info) :
    a.lt a = false ∧
    (a.lt b = true → b.lt c = true → a.lt c = true) ∧
    ((a.lt b = true ∨ b.lt a = true ∨
        (a.get_tuple = b.get_tuple ∧ a.is_insert = b.is_insert)) ∧
      ¬ (a.lt b = true ∧ b.lt a = true) ∧
      ¬ (a.lt b = true ∧ (a.get_tuple = b.get_tuple ∧ a.is_insert = b.is_insert)) ∧
      ¬ (b.lt a = true ∧ (a.get_tuple = b.get_tuple ∧ a.is_insert = b.is_insert))) ∧
    (a.get_tuple < b.get_tuple → a.lt b = true) ∧
    (a.get_tuple = b.get_tuple →
      (a.lt b = true ↔ (a.is_insert = true ∧ b.is_insert = false))) := by
  simp only [dbtuple_write_info.lt, marked_ptr.lt, marked_ptr.eq,
    dbtuple_write_info.get_tuple, Bool.or_eq_true, Bool.and_eq_true, decide_eq_true_eq,
    Bool.or_eq_false_iff, Bool.and_eq_false_iff]
  cases a.is_insert <;> cases b.is_insert <;> cases c.is_insert <;>
    simp [Bool.toNat] <;> omega

/-- A use of C1: an insert entry of tuple 8, the other entry of tuple 8, and an
entry of tuple 16 are in this order, and so are the first and the last. -/
theorem dbtuple_write_info_lt_strict_total_order_witness :
    (dbtuple_write_info.mk2 8 true).lt (dbtuple_write_info.mk2 8 false) = true ∧
    (dbtuple_write_info.mk2 8 false).lt (dbtuple_write_info.mk2 16 true) = true ∧
    (dbtuple_write_info.mk2 8 true).lt (dbtuple_write_info.mk2 16 true) = true :=
  ⟨by decide, by decide,
    (dbtuple_write_info_lt_strict_total_order (dbtuple_write_info.mk2 8 true)
      (dbtuple_write_info.mk2 8 false) (dbtuple_write_info.mk2 16 true)).2.1
      (by decide) (by decide)⟩

end transaction_base

/-! ### The binary search over a sorted vector -/

/-- One run of the loop of `std::lower_bound` keeps the partition: when the
comparison is the order of a key `f`, the vector is sorted by `f`, every entry
before `first` is below the value and every entry from `first + len` on is not,
the position returned splits the vector in the same way. -/
theorem lower_bound_loop_partition {α : Type} (comp : α → α → Bool) (f : α → Nat)
    (hcomp : ∀ a b, comp a b = decide (f a < f b)) (v : List α) (val : α)
    (hs : ∀ (i j : Nat) (a b : α), i ≤ j → v[i]? = some a → v[j]? = some b → f a ≤ f b)
    (fuel first len : Nat) (hfuel : len ≤ fuel) (hlen : first + len ≤ v.length)
    (hlo : ∀ (i : Nat) (a : α), i < first → v[i]? = some a → f a < f val)
    (hhi : ∀ (i : Nat) (a : α), first + len ≤ i → v[i]? = some a → f val ≤ f a) :
    lower_bound_loop comp v val fuel first len ≤ v.length ∧
    (∀ (i : Nat) (a : α), i < lower_bound_loop comp v val fuel first len → v[i]? = some a → f a < f val) ∧
    (∀ (i : Nat) (a : α), lower_bound_loop comp v val fuel first len ≤ i → v[i]? = some a →
      f val ≤ f a) := by
  induction fuel generalizing first len with
  | zero =>
    have h0 : len = 0 := by omega
    subst h0
    simp only [lower_bound_loop]
    exact ⟨by omega, hlo, fun i a hi => hhi i a (by omega)⟩
  | succ fuel ih =>
    by_cases hpos : 0 < len
    · have hhalf : len >>> 1 = len / 2 := by simp [Nat.shiftRight_eq_div_pow]
      have hmid : first + len / 2 < v.length := by omega
      simp only [lower_bound_loop, hpos, if_true, hhalf, List.getElem?_eq_getElem hmid]
      by_cases hc : comp v[first + len / 2] val = true
      · simp only [hc, if_true]
        have hlt : f v[first + len / 2] < f val := by
          rw [hcomp] at hc; simpa using hc
        apply ih
        · omega
        · omega
        · intro i a hi ha
          have := hs i (first + len / 2) a v[first + len / 2] (by omega) ha
            (List.getElem?_eq_getElem hmid)
          omega
        · intro i a hi ha
          exact hhi i a (by omega) ha
      · simp only [hc]
        have hge : f val ≤ f v[first + len / 2] := by
          rw [hcomp] at hc; simpa using hc
        apply ih
        · omega
        · omega
        · exact hlo
        · intro i a hi ha
          have := hs (first + len / 2) i v[first + len / 2] a hi
            (List.getElem?_eq_getElem hmid) ha
          omega
    · have h0 : len = 0 := by omega
      subst h0
      simp only [lower_bound_loop, lt_irrefl, if_false]
      exact ⟨by omega, hlo, fun i a hi => hhi i a (by omega)⟩

/-- On a vector sorted by a key `f`, `std::binary_search` with the order of `f`
finds a value exactly when some entry has the key of the value. -/
theorem binary_search_iff_key {α : Type} (comp : α → α → Bool) (f : α → Nat)
    (hcomp : ∀ a b, comp a b = decide (f a < f b)) (v : List α) (val : α)
    (hs : ∀ (i j : Nat) (a b : α), i ≤ j → v[i]? = some a → v[j]? = some b → f a ≤ f b) :
    binary_search comp v val = true ↔ ∃ e ∈ v, f e = f val := by
  obtain ⟨hle, hlo, hhi⟩ := lower_bound_loop_partition comp f hcomp v val hs v.length 0 v.length
    (le_refl _) (by omega) (fun i a hi => absurd hi (by omega))
    (fun i a hi ha => by
      have : i < v.length := by
        by_contra hn
        rw [List.getElem?_eq_none (by omega)] at ha
        cases ha
      omega)
  unfold binary_search lower_bound
  constructor
  · intro h
    cases hr : v[lower_bound_loop comp v val v.length 0 v.length]? with
    | none => rw [hr] at h; cases h
    | some e =>
      rw [hr] at h
      have h1 := hhi _ e (le_refl _) hr
      have h2 : ¬ f val < f e := by
        simp only [hcomp] at h; simpa using h
      exact ⟨e, List.getElem?_mem hr, by omega⟩
  · rintro ⟨e, he, hfe⟩
    obtain ⟨i, hi, hie⟩ := List.getElem_of_mem he
    have hie2 : v[i]? = some e := by rw [List.getElem?_eq_getElem hi, hie]
    have hri : lower_bound_loop comp v val v.length 0 v.length ≤ i := by
      by_contra hn
      have := hlo i e (by omega) hie2
      omega
    have hrl : lower_bound_loop comp v val v.length 0 v.length < v.length := by omega
    rw [List.getElem?_eq_getElem hrl]
    have h1 := hs _ i _ e hri (List.getElem?_eq_getElem hrl) hie2
    have h2 := hhi _ _ (le_refl _) (List.getElem?_eq_getElem hrl)
    simp only [hcomp]
    simp
    omega

namespace transaction

open transaction_base

/-- The key that `operator<` of `dbtuple_write_info` orders by: the tuple first,
then the negated insert flag. -/
theorem dbtuple_write_info_lt_eq_key (a b : dbtuple_write_info) :
    a.lt b = decide (2 * a.get_tuple + (!a.is_insert).toNat <
      2 * b.get_tuple + (!b.is_insert).toNat) := by
  simp only [dbtuple_write_info.lt, marked_ptr.lt, marked_ptr.eq, dbtuple_write_info.get_tuple]
  rw [Bool.eq_iff_iff]
  cases a.is_insert <;> cases b.is_insert <;> simp [Bool.toNat] <;> omega

/-- What `sorted_dbtuples_contains` computes on a sorted vector: it finds a tuple
exactly when the vector has an entry of that tuple that is not an insert. -/
theorem sorted_dbtuples_contains_iff_noninsert (dbtuples : List dbtuple_write_info)
    (hs : dbtuples_sorted dbtuples) (tuple : Nat) :
    sorted_dbtuples_contains dbtuples tuple = true ↔
      ∃ e ∈ dbtuples, e.get_tuple = tuple ∧ e.is_insert = false := by
  have hkey := binary_search_iff_key dbtuple_write_info.lt
    (fun e => 2 * e.get_tuple + (!e.is_insert).toNat) dbtuple_write_info_lt_eq_key
    dbtuples (dbtuple_write_info.mk1 tuple)
    (by
      intro i j a b hij ha hb
      rcases Nat.eq_or_lt_of_le hij with heq | hlt
      · subst heq
        rw [ha] at hb
        cases hb
        exact le_refl _
      · obtain ⟨hi, hia⟩ := List.getElem?_eq_some.mp ha
        obtain ⟨hj, hjb⟩ := List.getElem?_eq_some.mp hb
        have h := (List.pairwise_iff_getElem.mp hs) i j hi hj hlt
        rw [hia, hjb, dbtuple_write_info_lt_eq_key] at h
        dsimp only
        simpa using h)
  unfold sorted_dbtuples_contains
  rw [hkey]
  have hmk : (dbtuple_write_info.mk1 tuple).get_tuple = tuple ∧
      (dbtuple_write_info.mk1 tuple).is_insert = false :=
    ⟨rfl, by
      simp [dbtuple_write_info.mk1, dbtuple_write_info.is_insert, marked_ptr.of_ptr,
        marked_ptr.get_flags]⟩
  constructor
  · rintro ⟨e, he, h⟩
    refine ⟨e, he, ?_⟩
    dsimp only at h
    rw [hmk.1, hmk.2] at h
    revert h
    cases e.is_insert
    · simp [Bool.toNat]
    · simp only [Bool.not_true, Bool.not_false, Bool.toNat]
      intro h
      exact absurd h (by simp; omega)
  · rintro ⟨e, he, h1, h2⟩
    refine ⟨e, he, ?_⟩
    dsimp only
    rw [hmk.1, hmk.2, h1, h2]

/-- A use of the description of `sorted_dbtuples_contains`: tuple 16 is found
among three sorted entries, through its entry that is not an insert. -/
theorem sorted_dbtuples_contains_iff_noninsert_witness :
    sorted_dbtuples_contains
      [dbtuple_write_info.mk2 8 true, dbtuple_write_info.mk2 16 true,
       dbtuple_write_info.mk2 16 false] 16 = true :=
  (sorted_dbtuples_contains_iff_noninsert _ (by decide) 16).mpr
    ⟨dbtuple_write_info.mk2 16 false, by simp, rfl, rfl⟩

/-- C2, at a vector the claim fails on: the vector holding the one entry
`dbtuple_write_info(8, true)` is sorted and has an entry of tuple 8, and
`sorted_dbtuples_contains` answers false for tuple 8. -/
theorem sorted_dbtuples_contains_misses_insert :
    dbtuples_sorted [dbtuple_write_info.mk2 8 true] ∧
    (∃ e ∈ [dbtuple_write_info.mk2 8 true], e.get_tuple = 8) ∧
    sorted_dbtuples_contains [dbtuple_write_info.mk2 8 true] 8 = false :=
  ⟨by simp [dbtuples_sorted], ⟨_, List.mem_singleton.mpr rfl, rfl⟩, by decide⟩

end transaction

/-! ### The state machine -/

namespace transaction_base

/-- C3: `ensure_active` is the operation-triggered transition of the state machine:
from EMBRYO it leaves ACTIVE, in ACTIVE it changes nothing, in COMMITTED or ABORTED
its invariant check fails and the state stays, a second call changes nothing more,
the flags stay, and no state among COMMITTED, ABORTED and EMBRYO is ever the
result of a call made in another state. -/
theorem ensure_active_state_machine (t : transaction_base) :
    (t.state = txn_state.TXN_EMBRYO →
      (ensure_active t).1.state = txn_state.TXN_ACTIVE ∧ (ensure_active t).2 = true) ∧
    (t.state = txn_state.TXN_ACTIVE → ensure_active t = (t, true)) ∧
    (ensure_active (ensure_active t).1).1 = (ensure_active t).1 ∧
    (t.state = txn_state.TXN_COMMITED ∨ t.state = txn_state.TXN_ABRT →
      (ensure_active t).2 = false ∧ (ensure_active t).1 = t) ∧
    (ensure_active t).1.flags = t.flags ∧
    (ensure_active t).1.get_flags = t.get_flags ∧
    (∀ s, s = txn_state.TXN_COMMITED ∨ s = txn_state.TXN_ABRT ∨ s = txn_state.TXN_EMBRYO →
      (ensure_active t).1.state = s → t.state = s) := by
  obtain ⟨st, rs, fl⟩ := t
  cases st <;> simp [ensure_active, get_flags]

/-- A use of C3 on a freshly constructed object. -/
theorem ensure_active_state_machine_witness :
    (ctor 3).state = txn_state.TXN_EMBRYO ∧
    (ensure_active (ctor 3)).1.state = txn_state.TXN_ACTIVE ∧
    (ensure_active (ctor 3)).2 = true :=
  ⟨rfl, (ensure_active_state_machine (ctor 3)).1 rfl⟩

end transaction_base

/-! ### The tentative insert -/

namespace transaction

open transaction_base

variable {ValueType ValueInfoType : Type} {StableInputs : Bool}

/-- C4: when `try_insert_new_tuple` returns a null tuple the abort flag is false and
the read set, the write set and the absent set are as before; when it returns a
tuple, exactly one write record, tagged insert and naming that tuple, has been
appended to the write set. -/
theorem try_insert_new_tuple_post [Inhabited ValueType]
    (t : transaction ValueType ValueInfoType StableInputs) (btr : Nat) (key : String)
    (value : Option ValueType) (vinfo : ValueInfoType) (answer : tentative_insert) :
    ((try_insert_new_tuple t btr key value vinfo answer).1.1 = 0 →
      (try_insert_new_tuple t btr key value vinfo answer).1.2 = false ∧
      (try_insert_new_tuple t btr key value vinfo answer).2.read_set = t.read_set ∧
      (try_insert_new_tuple t btr key value vinfo answer).2.write_set = t.write_set ∧
      (try_insert_new_tuple t btr key value vinfo answer).2.absent_set = t.absent_set) ∧
    ((try_insert_new_tuple t btr key value vinfo answer).1.1 ≠ 0 →
      ∃ w, (try_insert_new_tuple t btr key value vinfo answer).2.write_set = t.write_set ++ [w] ∧
        w.is_insert = true ∧
        w.get_tuple = (try_insert_new_tuple t btr key value vinfo answer).1.1) := by
  cases answer with
  | existing_key => simp [try_insert_new_tuple]
  | created tuple nonnull node old_version new_version =>
    have hins : (basic_write_record_t.ctor StableInputs tuple key value vinfo btr true :
        basic_write_record_t ValueType ValueInfoType StableInputs).is_insert = true := by
      simp [basic_write_record_t.ctor, basic_write_record_t.is_insert, marked_ptr.set_flags,
        marked_ptr.get_flags, basic_write_record_t.FLAGS_INSERT]
    have htup : (basic_write_record_t.ctor StableInputs tuple key value vinfo btr true :
        basic_write_record_t ValueType ValueInfoType StableInputs).get_tuple = tuple := rfl
    simp only [try_insert_new_tuple]
    cases hl : List.lookup node t.absent_set with
    | none => exact ⟨fun h => absurd h nonnull, fun _ => ⟨_, rfl, hins, htup⟩⟩
    | some rec =>
      by_cases hv : rec.version = old_version
      · simp only [hv, ne_eq, not_true_eq_false, if_false]
        exact ⟨fun h => absurd h nonnull, fun _ => ⟨_, rfl, hins, htup⟩⟩
      · simp only [ne_eq, hv, not_false_eq_true, if_true]
        exact ⟨fun h => absurd h nonnull, fun _ => ⟨_, rfl, hins, htup⟩⟩

/-- A use of C4: the Index answers once with an existing key, once with a new
record. -/
theorem try_insert_new_tuple_post_witness :
    ((try_insert_new_tuple sample_txn 64 "k" (some 7) 0 tentative_insert.existing_key).1.1 = 0 ∧
      (try_insert_new_tuple sample_txn 64 "k" (some 7) 0 tentative_insert.existing_key).1.2 =
        false) ∧
    ((try_insert_new_tuple sample_txn 64 "k" (some 7) 0
        (tentative_insert.created 8 (by decide) 64 3 4)).1.1 ≠ 0 ∧
      ∃ w, (try_insert_new_tuple sample_txn 64 "k" (some 7) 0
          (tentative_insert.created 8 (by decide) 64 3 4)).2.write_set =
          sample_txn.write_set ++ [w] ∧
        w.is_insert = true ∧
        w.get_tuple = (try_insert_new_tuple sample_txn 64 "k" (some 7) 0
          (tentative_insert.created 8 (by decide) 64 3 4)).1.1) :=
  ⟨⟨rfl, ((try_insert_new_tuple_post sample_txn 64 "k" (some 7) 0
      tentative_insert.existing_key).1 rfl).1⟩,
   ⟨by decide, (try_insert_new_tuple_post sample_txn 64 "k" (some 7) 0
      (tentative_insert.created 8 (by decide) 64 3 4)).2 (by decide)⟩⟩

end transaction

/-! ### The abort reasons and their counters -/

namespace transaction_base

/-- Two distinct abort reasons never share a counter. -/
theorem AbortReasonCounter_injective_aux (r1 r2 : abort_reason) (h : r1 ≠ r2) :
    AbortReasonCounter r1 ≠ AbortReasonCounter r2 := by
  revert h
  cases r1 <;> cases r2 <;> decide

/-- C5: the abort reasons are exactly the nine of `ABORT_REASONS`, the lookup of
`AbortReasonCounter` succeeds for each of them, and two distinct reasons get two
distinct counters. -/
theorem AbortReasonCounter_dedicated :
    ABORT_REASONS.length = 9 ∧ ABORT_REASONS.Nodup ∧
    (∀ r : abort_reason, r ∈ ABORT_REASONS ∧ ABORT_REASONS[r.val]? = some r) ∧
    (∀ r : abort_reason, (AbortReasonCounter r).isSome = true) ∧
    (∀ r1 r2 : abort_reason, r1 ≠ r2 → AbortReasonCounter r1 ≠ AbortReasonCounter r2) := by
  refine ⟨rfl, by decide, ?_, ?_, ?_⟩
  · intro r; cases r <;> exact ⟨by decide, rfl⟩
  · intro r; cases r <;> rfl
  · exact AbortReasonCounter_injective_aux

/-- A use of C5 on two of the reasons. -/
theorem AbortReasonCounter_dedicated_witness :
    abort_reason.ABORT_REASON_USER ≠ abort_reason.ABORT_REASON_UNSTABLE_READ ∧
    AbortReasonCounter abort_reason.ABORT_REASON_USER ≠
      AbortReasonCounter abort_reason.ABORT_REASON_UNSTABLE_READ :=
  ⟨by decide, AbortReasonCounter_dedicated.2.2.2.2 _ _ (by decide)⟩

/-! ### Write records under the two input policies -/

namespace basic_write_record_t

variable {ValueType ValueInfoType : Type}

/-- C6: the stable-input policy changes where the bytes are kept, not what the
accessors return: under both settings `get_key()` is the key given, `get_value()`
is null exactly when the value pointer given is null and otherwise points to the
value given, and the two records agree on all six accessors. -/
theorem stable_inputs_observational [Inhabited ValueType] (StableInputs : Bool) (tuple : Nat)
    (k : String) (r : Option ValueType) (vinfo : ValueInfoType) (btr : Nat) (insert : Bool) :
    (ctor StableInputs tuple k r vinfo btr insert).get_key = some k ∧
    ((ctor StableInputs tuple k r vinfo btr insert).get_value = none ↔ r = none) ∧
    (∀ v, r = some v → (ctor StableInputs tuple k r vinfo btr insert).get_value = some v) ∧
    (ctor true tuple k r vinfo btr insert).get_key =
      (ctor false tuple k r vinfo btr insert).get_key ∧
    (ctor true tuple k r vinfo btr insert).get_value =
      (ctor false tuple k r vinfo btr insert).get_value ∧
    (ctor true tuple k r vinfo btr insert).get_tuple =
      (ctor false tuple k r vinfo btr insert).get_tuple ∧
    (ctor true tuple k r vinfo btr insert).get_btree =
      (ctor false tuple k r vinfo btr insert).get_btree ∧
    (ctor true tuple k r vinfo btr insert).get_value_info =
      (ctor false tuple k r vinfo btr insert).get_value_info ∧
    (ctor true tuple k r vinfo btr insert).is_insert =
      (ctor false tuple k r vinfo btr insert).is_insert := by
  have hk : ∀ s : Bool, (ctor s tuple k r vinfo btr insert :
      basic_write_record_t ValueType ValueInfoType s).get_key = some k := by
    intro s; cases s <;> rfl
  have hv : ∀ s : Bool, (ctor s tuple k r vinfo btr insert :
      basic_write_record_t ValueType ValueInfoType s).get_value = r := by
    intro s; cases s <;> cases r <;> rfl
  refine ⟨hk _, ?_, ?_, ?_, ?_, rfl, rfl, rfl, rfl⟩
  · rw [hv]
  · intro v h; rw [hv, h]
  · rw [hk, hk]
  · rw [hv, hv]

/-- A use of C6: a copied value is read back from the record. -/
theorem stable_inputs_observational_witness :
    (some 7 : Option Nat) = some 7 ∧
    (ctor false 8 "k" (some 7) (0 : Nat) 64 true).get_value = some 7 :=
  ⟨rfl, (stable_inputs_observational false 8 "k" (some 7) (0 : Nat) 64 true).2.2.1 7 rfl⟩

end basic_write_record_t

end transaction_base

/-! ### Lookup in the read set, construction and flags -/

namespace transaction

open transaction_base

variable {ValueType ValueInfoType : Type} {StableInputs : Bool}

/-- The loop of `find_read_set` stops at the first entry of the tuple. -/
theorem find_read_set_loop_eq (rs : List read_record_t) (tuple it : Nat) :
    find_read_set_loop rs tuple it =
      it + rs.findIdx (fun r => decide (r.get_tuple = tuple)) := by
  induction rs generalizing it with
  | nil => simp [find_read_set_loop]
  | cons r rest ih =>
    by_cases h : r.get_tuple = tuple
    · simp [find_read_set_loop, List.findIdx_cons, h]
    · simp [find_read_set_loop, List.findIdx_cons, h, ih]
      omega

/-- C7: `find_read_set(t)` returns the position of the first entry whose tuple is
`t`: the entry there has tuple `t`, no entry before it has, the end position is
returned exactly when no entry has tuple `t`, and the object is left as it was. -/
theorem find_read_set_first_match (t : transaction ValueType ValueInfoType StableInputs)
    (tuple : Nat) :
    (find_read_set t tuple).1 = t ∧
    (find_read_set t tuple).2 ≤ t.read_set.length ∧
    ((find_read_set t tuple).2 < t.read_set.length →
      ∃ e, t.read_set[(find_read_set t tuple).2]? = some e ∧ e.get_tuple = tuple) ∧
    (∀ j e, j < (find_read_set t tuple).2 → t.read_set[j]? = some e → e.get_tuple ≠ tuple) ∧
    ((find_read_set t tuple).2 = t.read_set.length ↔
      ∀ e ∈ t.read_set, e.get_tuple ≠ tuple) := by
  simp only [find_read_set, find_read_set_loop_eq, Nat.zero_add]
  refine ⟨trivial, List.findIdx_le_length _, ?_, ?_, ?_⟩
  · intro h
    refine ⟨t.read_set[List.findIdx (fun r => decide (r.get_tuple = tuple)) t.read_set], ?_, ?_⟩
    · simp [h]
    · have := @List.findIdx_getElem _ (fun r => decide (r.get_tuple = tuple)) t.read_set h
      simpa using this
  · intro j e hj he
    have hlt : j < t.read_set.length :=
      lt_of_lt_of_le hj (List.findIdx_le_length _)
    have := List.not_of_lt_findIdx hj
    rw [List.getElem?_eq_getElem hlt] at he
    cases he
    simpa using this
  · rw [List.findIdx_eq_length]
    simp

/-- A use of C7: the second of three entries is the first one of tuple 16. -/
theorem find_read_set_first_match_witness :
    (find_read_set sample_txn 16).2 < sample_txn.read_set.length ∧
    ∃ e, sample_txn.read_set[(find_read_set sample_txn 16).2]? = some e ∧ e.get_tuple = 16 :=
  ⟨by decide, (find_read_set_first_match sample_txn 16).2.2.1 (by decide)⟩

/-- The test `is_read_only()` reads bit 1 of the flags. -/
theorem is_read_only_eq_testBit (t : transaction ValueType ValueInfoType StableInputs) :
    t.is_read_only = t.flags.testBit 1 := by
  have h := Nat.and_two_pow t.flags 1
  simp only [pow_one] at h
  simp only [is_read_only, transaction_base.get_flags, TXN_FLAG_READ_ONLY, h]
  cases t.flags.testBit 1 <;> simp

/-- C8: a transaction is constructed in state EMBRYO with the flags it was given;
`is_read_only()` holds exactly when bit `0x2` of the flags is set, whatever the
`0x1` bit is (set or cleared in the 64-bit word), and `ensure_active`, `abort_trap`
and the accessors leave the flags as they are. -/
theorem ctor_embryo_flags (f : Nat) (rs : List read_record_t)
    (ws : List (basic_write_record_t ValueType ValueInfoType StableInputs))
    (as : List (Nat × absent_record_t)) :
    (transaction_base.ctor f).state = txn_state.TXN_EMBRYO ∧
    (transaction_base.ctor f).get_flags = f ∧
    (is_read_only (transaction.mk (transaction_base.ctor f) rs ws as) = true ↔
      f &&& 0x2 ≠ 0) ∧
    (is_read_only (transaction.mk (transaction_base.ctor f) rs ws as) = true ↔
      f.testBit 1 = true) ∧
    is_read_only (transaction.mk (transaction_base.ctor (f ||| TXN_FLAG_LOW_LEVEL_SCAN)) rs ws as) =
      is_read_only (transaction.mk (transaction_base.ctor f) rs ws as) ∧
    is_read_only (transaction.mk
        (transaction_base.ctor (f &&& (2 ^ 64 - 1 - TXN_FLAG_LOW_LEVEL_SCAN))) rs ws as) =
      is_read_only (transaction.mk (transaction_base.ctor f) rs ws as) ∧
    (transaction_base.ensure_active (transaction_base.ctor f)).1.get_flags = f ∧
    (∀ t : transaction_base, (transaction_base.ensure_active t).1.get_flags = t.get_flags) ∧
    (∀ (g : event_counter_name → event_counter)
        (t : transaction ValueType ValueInfoType StableInputs) (r : abort_reason),
      ∃ g1 t1, abort_trap g t r = some (g1, t1) ∧ t1.get_flags = t.get_flags) := by
  have h1 : Nat.testBit 1 1 = false := by decide
  have h2 : Nat.testBit (2 ^ 64 - 1 - 1) 1 = true := by decide
  refine ⟨rfl, rfl, ?_, ?_, ?_, ?_, ?_, ?_, ?_⟩
  · simp [is_read_only, transaction_base.get_flags, transaction_base.ctor, TXN_FLAG_READ_ONLY]
  · rw [is_read_only_eq_testBit]; rfl
  · rw [is_read_only_eq_testBit, is_read_only_eq_testBit]
    simp [transaction_base.ctor, TXN_FLAG_LOW_LEVEL_SCAN, Nat.testBit_or, h1]
  · rw [is_read_only_eq_testBit, is_read_only_eq_testBit]
    simp only [transaction_base.ctor, TXN_FLAG_LOW_LEVEL_SCAN, Nat.testBit_and, h2, Bool.and_true]
  · simp [transaction_base.ensure_active, transaction_base.get_flags, transaction_base.ctor]
  · intro t
    obtain ⟨st, rs, fl⟩ := t
    cases st <;> simp [transaction_base.ensure_active, transaction_base.get_flags]
  · intro g t r
    cases r <;> exact ⟨_, _, rfl, rfl⟩

end transaction

/-! ### The abort exception -/

namespace transaction_abort_exception

open transaction_base

/-- C9: the abort exception carries its reason unchanged, its message is
`AbortReasonStr` of the reason, which is defined for each of the nine reasons, is the
spelling of the enumerator, and differs for different reasons. -/
theorem carries_reason (r : abort_reason) :
    (ctor r).get_reason = r ∧
    (ctor r).what = AbortReasonStr r ∧
    (AbortReasonStr r).isSome = true ∧
    AbortReasonStr abort_reason.ABORT_REASON_UNSTABLE_READ = some "ABORT_REASON_UNSTABLE_READ" ∧
    ABORT_REASONS.map AbortReasonStr =
      [some "ABORT_REASON_USER", some "ABORT_REASON_UNSTABLE_READ",
       some "ABORT_REASON_FUTURE_TID_READ",
       some "ABORT_REASON_NODE_SCAN_WRITE_VERSION_CHANGED",
       some "ABORT_REASON_NODE_SCAN_READ_VERSION_CHANGED",
       some "ABORT_REASON_WRITE_NODE_INTERFERENCE",
       some "ABORT_REASON_INSERT_NODE_INTERFERENCE",
       some "ABORT_REASON_READ_NODE_INTEREFERENCE",
       some "ABORT_REASON_READ_ABSENCE_INTEREFERENCE"] ∧
    (∀ r2 : abort_reason, (ctor r).what = (ctor r2).what → r = r2) := by
  refine ⟨rfl, rfl, ?_, rfl, rfl, ?_⟩
  · cases r <;> rfl
  · intro r2
    cases r <;> cases r2 <;>
      simp [what, ctor, AbortReasonStr, AbortReasonStr_switch, abort_reason.val]

/-- A use of C9: the reason is read back from the message of an exception. -/
theorem carries_reason_witness :
    (ctor abort_reason.ABORT_REASON_USER).what = (ctor abort_reason.ABORT_REASON_USER).what ∧
    abort_reason.ABORT_REASON_USER = abort_reason.ABORT_REASON_USER :=
  ⟨rfl, (carries_reason abort_reason.ABORT_REASON_USER).2.2.2.2.2 _ rfl⟩

end transaction_abort_exception

/-! ### Recording an abort -/

namespace transaction

open transaction_base

variable {ValueType ValueInfoType : Type} {StableInputs : Bool}

/-- C10: in the build without `DIE_ON_ABORT`, `abort_trap(r)` returns, adds one to
the counter of `r`, and leaves every other counter, in particular those of the
eight other reasons, and the whole transaction object (state, flags, read set,
write set, absent set) as they were. -/
theorem abort_trap_frame (g : event_counter_name → event_counter)
    (t : transaction ValueType ValueInfoType StableInputs) (r : abort_reason) :
    ∃ c g1, AbortReasonCounter r = some c ∧ abort_trap g t r = some (g1, t) ∧
      (g1 c).count = (g c).count + 1 ∧
      (∀ r2 c2, r2 ≠ r → AbortReasonCounter r2 = some c2 → g1 c2 = g c2) ∧
      (∀ c2, c2 ≠ c → g1 c2 = g c2) := by
  have hsome : ∃ c, AbortReasonCounter r = some c := by
    cases r <;> exact ⟨_, rfl⟩
  obtain ⟨c, hc⟩ := hsome
  refine ⟨c, Function.update g c (g c).inc, hc, ?_, ?_, ?_, ?_⟩
  · simp [abort_trap, hc]
  · simp [event_counter.inc]
  · intro r2 c2 hne h2
    have hcc : c2 ≠ c := by
      intro heq
      apply AbortReasonCounter_injective_aux r2 r hne
      rw [h2, hc, heq]
    simp [Function.update, hcc]
  · intro c2 hcc
    simp [Function.update, hcc]

/-- A use of C10: one user abort on zeroed counters. -/
theorem abort_trap_frame_witness :
    ∃ g1, abort_trap (fun _ => { count := 0 }) sample_txn abort_reason.ABORT_REASON_USER =
        some (g1, sample_txn) ∧
      (g1 event_counter_name.g_ABORT_REASON_USER_ctr).count = 1 ∧
      (g1 event_counter_name.g_ABORT_REASON_UNSTABLE_READ_ctr).count = 0 := by
  obtain ⟨c, g1, hc, ht, h1, h2, _⟩ :=
    abort_trap_frame (fun _ => { count := 0 }) sample_txn abort_reason.ABORT_REASON_USER
  have hc1 : c = event_counter_name.g_ABORT_REASON_USER_ctr := by
    have h : some event_counter_name.g_ABORT_REASON_USER_ctr = some c := hc
    exact (Option.some.inj h).symm
  subst hc1
  refine ⟨g1, ht, h1, ?_⟩
  rw [h2 abort_reason.ABORT_REASON_UNSTABLE_READ _ (by decide) rfl]

end transaction

/-! ### Freshly constructed dedup entries and write records -/

namespace transaction_base

/-- C11: an entry built for an inserted tuple is an insert and is locked, an entry
built with `insert = false` or from the tuple alone is neither, each of the three
names the tuple it was built from, and so a freshly built entry that is an insert
is locked. -/
theorem dbtuple_write_info_ctor_flags (t : Nat) :
    (dbtuple_write_info.mk2 t true).is_insert = true ∧
    (dbtuple_write_info.mk2 t true).is_locked = true ∧
    (dbtuple_write_info.mk2 t false).is_insert = false ∧
    (dbtuple_write_info.mk2 t false).is_locked = false ∧
    (dbtuple_write_info.mk1 t).is_insert = false ∧
    (dbtuple_write_info.mk1 t).is_locked = false ∧
    (dbtuple_write_info.mk2 t true).get_tuple = t ∧
    (dbtuple_write_info.mk2 t false).get_tuple = t ∧
    (dbtuple_write_info.mk1 t).get_tuple = t ∧
    (∀ insert : Bool, (dbtuple_write_info.mk2 t insert).is_insert = true →
      (dbtuple_write_info.mk2 t insert).is_locked = true) ∧
    ((dbtuple_write_info.mk1 t).is_insert = true → (dbtuple_write_info.mk1 t).is_locked = true) := by
  have h2 : ∀ insert : Bool, (dbtuple_write_info.mk2 t insert).is_insert = insert ∧
      (dbtuple_write_info.mk2 t insert).is_locked = insert := by
    intro insert
    cases insert <;>
      simp [dbtuple_write_info.mk2, dbtuple_write_info.is_insert, dbtuple_write_info.is_locked,
        marked_ptr.of_ptr, marked_ptr.set_flags, marked_ptr.get_flags,
        dbtuple_write_info.FLAGS_LOCKED, dbtuple_write_info.FLAGS_INSERT]
  have h1 : (dbtuple_write_info.mk1 t).is_insert = false ∧
      (dbtuple_write_info.mk1 t).is_locked = false := by
    simp [dbtuple_write_info.mk1, dbtuple_write_info.is_insert, dbtuple_write_info.is_locked,
      marked_ptr.of_ptr, marked_ptr.get_flags]
  refine ⟨(h2 true).1, (h2 true).2, (h2 false).1, (h2 false).2, h1.1, h1.2, rfl, rfl, rfl, ?_, ?_⟩
  · intro insert h
    rw [(h2 insert).1] at h
    rw [(h2 insert).2, h]
  · intro h
    rw [h1.1] at h
    cases h

/-- A use of C11: the entry built for the inserted tuple 8 is an insert, hence
locked. -/
theorem dbtuple_write_info_ctor_flags_witness :
    (dbtuple_write_info.mk2 8 true).is_insert = true ∧
    (dbtuple_write_info.mk2 8 true).is_locked = true :=
  ⟨by decide, (dbtuple_write_info_ctor_flags 8).2.2.2.2.2.2.2.2.2.1 true (by decide)⟩

namespace basic_write_record_t

variable {ValueType ValueInfoType : Type}

/-- C12: the insert flag kept with the index reference of a write record is read
back as given and leaves the reference as given: `is_insert()` is the `insert` the
record was built with, `get_btree()` is the `btr` and `get_tuple()` the `tuple` it
was built with, so `get_btree()` is the same for `insert = true` and
`insert = false`. -/
theorem insert_flag_read_back [Inhabited ValueType] (StableInputs : Bool) (tuple : Nat)
    (k : String) (r : Option ValueType) (vinfo : ValueInfoType) (btr : Nat) (insert : Bool) :
    (ctor StableInputs tuple k r vinfo btr insert :
      basic_write_record_t ValueType ValueInfoType StableInputs).is_insert = insert ∧
    (ctor StableInputs tuple k r vinfo btr insert :
      basic_write_record_t ValueType ValueInfoType StableInputs).get_btree = btr ∧
    (ctor StableInputs tuple k r vinfo btr insert :
      basic_write_record_t ValueType ValueInfoType StableInputs).get_tuple = tuple ∧
    (ctor StableInputs tuple k r vinfo btr true :
      basic_write_record_t ValueType ValueInfoType StableInputs).get_btree =
    (ctor StableInputs tuple k r vinfo btr false :
      basic_write_record_t ValueType ValueInfoType StableInputs).get_btree := by
  refine ⟨?_, rfl, rfl, rfl⟩
  cases insert <;>
    simp [ctor, is_insert, marked_ptr.of_ptr, marked_ptr.set_flags, marked_ptr.get_flags,
      FLAGS_INSERT]

end basic_write_record_t

end transaction_base

/-! ### Locking entries in place -/

namespace transaction

open transaction_base

/-- The entry after `mark_locked()` is locked and has the tuple and the insert
flag it had. -/
theorem mark_locked_fields (e : dbtuple_write_info) :
    e.mark_locked.1.is_locked = true ∧
    e.mark_locked.1.get_tuple = e.get_tuple ∧
    e.mark_locked.1.is_insert = e.is_insert := by
  have h0 := Nat.and_two_pow (e.tuple.flags ||| 1) 0
  have h1 := Nat.and_two_pow (e.tuple.flags ||| 1) 1
  have h2 := Nat.and_two_pow e.tuple.flags 1
  have b0 : Nat.testBit 1 0 = true := by decide
  have b1 : Nat.testBit 1 1 = false := by decide
  simp only [pow_zero, pow_one, Nat.testBit_or, b0, b1, Bool.or_true, Bool.or_false] at h0 h1 h2
  refine ⟨?_, rfl, ?_⟩
  · simp [dbtuple_write_info.mark_locked, dbtuple_write_info.is_locked, marked_ptr.or_flags,
      marked_ptr.get_flags, dbtuple_write_info.FLAGS_LOCKED, h0]
  · simp only [dbtuple_write_info.mark_locked, dbtuple_write_info.is_insert, marked_ptr.or_flags,
      marked_ptr.get_flags, dbtuple_write_info.FLAGS_INSERT, dbtuple_write_info.FLAGS_LOCKED]
    rw [show (1 <<< 1 : Nat) = 2 from rfl, h1, h2]

/-- A vector is sorted by `operator<` exactly when its keys are in order. -/
theorem dbtuples_sorted_iff_key (v : List dbtuple_write_info) :
    dbtuples_sorted v ↔
      (v.map (fun e => 2 * e.get_tuple + (!e.is_insert).toNat)).Pairwise (fun x y => x ≤ y) := by
  unfold dbtuples_sorted
  rw [List.pairwise_map]
  apply List.Pairwise.iff
  intro a b
  rw [dbtuple_write_info_lt_eq_key]
  simp

/-- An entry of a tuple that is not an insert is in a vector exactly when its key
is among the keys of the vector. -/
theorem noninsert_mem_iff_key (v : List dbtuple_write_info) (tuple : Nat) :
    (∃ e ∈ v, e.get_tuple = tuple ∧ e.is_insert = false) ↔
      2 * tuple + 1 ∈ v.map (fun e => 2 * e.get_tuple + (!e.is_insert).toNat) := by
  rw [List.mem_map]
  constructor
  · rintro ⟨e, he, h1, h2⟩
    exact ⟨e, he, by simp [h1, h2]⟩
  · rintro ⟨e, he, h⟩
    refine ⟨e, he, ?_⟩
    revert h
    cases e.is_insert
    · simp [Bool.toNat]
    · simp only [Bool.not_true, Bool.toNat]
      intro h
      exact absurd h (by simp; omega)

/-- Marking some unlocked entries of a vector locked leaves the keys of the vector
as they were. -/
theorem mark_locked_keys (v w : List dbtuple_write_info)
    (hm : List.Forall₂ (fun a b => b = a ∨ (a.is_locked = false ∧ b = a.mark_locked.1)) v w) :
    w.map (fun e => 2 * e.get_tuple + (!e.is_insert).toNat) =
      v.map (fun e => 2 * e.get_tuple + (!e.is_insert).toNat) := by
  induction hm with
  | nil => rfl
  | cons hab _ ih =>
    rw [List.map_cons, List.map_cons, ih]
    rcases hab with h | ⟨_, h⟩
    · rw [h]
    · rw [h, (mark_locked_fields _).2.1, (mark_locked_fields _).2.2]

/-- C13: `mark_locked()` on an unlocked entry passes its checks and changes the
locked flag only: the entry is locked afterwards, its tuple and insert flag are as
before, and it compares with every entry as before; so a sorted vector in which
some unlocked entries have been marked locked is still sorted, and
`sorted_dbtuples_contains` answers as before for every tuple. -/
theorem mark_locked_frame (e : dbtuple_write_info) (he : e.is_locked = false)
    (v w : List dbtuple_write_info) (hs : dbtuples_sorted v)
    (hm : List.Forall₂ (fun a b => b = a ∨ (a.is_locked = false ∧ b = a.mark_locked.1)) v w) :
    e.mark_locked.2 = true ∧
    e.mark_locked.1.is_locked = true ∧
    e.mark_locked.1.get_tuple = e.get_tuple ∧
    e.mark_locked.1.is_insert = e.is_insert ∧
    (∀ o : dbtuple_write_info,
      e.mark_locked.1.lt o = e.lt o ∧ o.lt e.mark_locked.1 = o.lt e) ∧
    dbtuples_sorted w ∧
    (∀ tuple, sorted_dbtuples_contains w tuple = sorted_dbtuples_contains v tuple) := by
  obtain ⟨hl, ht, hi⟩ := mark_locked_fields e
  have hsw : dbtuples_sorted w := by
    rw [dbtuples_sorted_iff_key, mark_locked_keys v w hm, ← dbtuples_sorted_iff_key]
    exact hs
  refine ⟨?_, hl, ht, hi, ?_, hsw, ?_⟩
  · have h2 : e.mark_locked.2 = (!e.is_locked && e.mark_locked.1.is_locked) := rfl
    rw [h2, he, hl]
    rfl
  · intro o
    rw [dbtuple_write_info_lt_eq_key, dbtuple_write_info_lt_eq_key,
      dbtuple_write_info_lt_eq_key, dbtuple_write_info_lt_eq_key, ht, hi]
    exact ⟨rfl, rfl⟩
  · intro tuple
    rw [Bool.eq_iff_iff, sorted_dbtuples_contains_iff_noninsert w hsw,
      sorted_dbtuples_contains_iff_noninsert v hs, noninsert_mem_iff_key,
      noninsert_mem_iff_key, mark_locked_keys v w hm]

/-- A use of C13: in the sorted vector of an insert entry of tuple 8 and an unlocked
entry of tuple 16, the second entry is marked locked. -/
theorem mark_locked_frame_witness :
    (dbtuple_write_info.mk2 16 false).mark_locked.1.is_locked = true ∧
    dbtuples_sorted
      [dbtuple_write_info.mk2 8 true, (dbtuple_write_info.mk2 16 false).mark_locked.1] ∧
    sorted_dbtuples_contains
      [dbtuple_write_info.mk2 8 true, (dbtuple_write_info.mk2 16 false).mark_locked.1] 16 =
      sorted_dbtuples_contains
        [dbtuple_write_info.mk2 8 true, dbtuple_write_info.mk2 16 false] 16 :=
  have h := mark_locked_frame (dbtuple_write_info.mk2 16 false) (by decide)
    [dbtuple_write_info.mk2 8 true, dbtuple_write_info.mk2 16 false]
    [dbtuple_write_info.mk2 8 true, (dbtuple_write_info.mk2 16 false).mark_locked.1]
    (by decide)
    (List.Forall₂.cons (Or.inl rfl)
      (List.Forall₂.cons (Or.inr ⟨by decide, rfl⟩) List.Forall₂.nil))
  ⟨h.2.1, h.2.2.2.2.2.1, h.2.2.2.2.2.2 16⟩

end transaction
